import Mathlib

/-!
Verification development for the Dublin infrastructure ground-motion pipeline.

The repository is a four-stage geospatial pipeline; the core logic lives in
three scripts:

* `step1_create_buffers.py`  — reproject, buffer by a fixed radius, dissolve;
* `step2_find_points_in_buffers.py` — spatial join of measurement points
  against the dissolved buffer zones with the strict `within` predicate;
* `step3_calculate_statistics.py` — per-zone velocity statistics, a baseline
  comparison and a three-tier risk classification.

Velocities are embedded as exact rationals.  The pandas/numpy scripts use
IEEE doubles whose non-finite values (NaN from statistics of an empty
series, inf/NaN from division by zero) never raise: they propagate as
values.  We embed a statistic that the float code would render as a
non-finite double as `none : Option ℚ` and a finite value `v` as `some v`.
Comparisons against NaN are false in Python, which the `oleB`/`ogeB`
helpers mirror (`none` fails every comparison).
-/

namespace DublinInfra

/-- Mean of a velocity series: `velocities.mean()`.  Pandas returns NaN for
an empty series, embedded as `none`. -/
def meanQ (vs : List ℚ) : Option ℚ :=
  if vs.length = 0 then none else some (vs.sum / (vs.length : ℚ))

/-- Median of a velocity series: `velocities.median()` — sort, take the
middle element (odd length) or the average of the two middle elements
(even length); NaN (`none`) for an empty series. -/
def medianQ (vs : List ℚ) : Option ℚ :=
  if vs.length = 0 then none
  else
    let s := List.insertionSort (fun a b => a ≤ b) vs
    if vs.length % 2 = 1 then some (s.getD (vs.length / 2) 0)
    else some ((s.getD (vs.length / 2 - 1) 0 + s.getD (vs.length / 2) 0) / 2)

/-- Minimum of a velocity series: `velocities.min()`; NaN for empty. -/
def minQ : List ℚ → Option ℚ
  | [] => none
  | x :: xs => some (xs.foldl min x)

/-- Maximum of a velocity series: `velocities.max()`; NaN for empty. -/
def maxQ : List ℚ → Option ℚ
  | [] => none
  | x :: xs => some (xs.foldl max x)

/-- Subtraction with NaN propagation (`NaN - x = NaN`). -/
def osub (a b : Option ℚ) : Option ℚ :=
  a.bind fun x => b.map fun y => x - y

/-- Square of the sample standard deviation `velocities.std()` (pandas
default `ddof = 1`).  The standard deviation itself is an irrational square
root in general, so the embedding carries its square; a claim only ever
depends on definedness of this field.  For fewer than two points pandas
yields NaN (`0/0` with `ddof = 1`), embedded as `none`. -/
def stdSqQ (vs : List ℚ) : Option ℚ :=
  if vs.length ≤ 1 then none
  else
    some ((vs.map (fun x => (x - vs.sum / (vs.length : ℚ)) ^ 2)).sum /
      ((vs.length : ℚ) - 1))

/-- A percentage `count / n * 100`: `(...).sum() / len(data) * 100`.  For
`n = 0` numpy evaluates `0 / 0`, yielding NaN (`none`), not an exception. -/
def pctQ (count n : ℕ) : Option ℚ :=
  if n = 0 then none else some ((count : ℚ) / (n : ℚ) * 100)

/-- The Zone Statistics Record built by `calculate_stats` (step 3).
`Std_sq_Velocity` carries the square of `Std_Velocity`, see `stdSqQ`. -/
structure StatsQ where
  Infrastructure : String
  N_Points : ℕ
  Mean_Velocity : Option ℚ
  Median_Velocity : Option ℚ
  Std_sq_Velocity : Option ℚ
  Min_Velocity : Option ℚ
  Max_Velocity : Option ℚ
  Range : Option ℚ
  Pct_Subsiding : Option ℚ
  Pct_Uplifting : Option ℚ
  Pct_Stable : Option ℚ
deriving DecidableEq, Repr

/-- `calculate_stats(data, name)` from `step3_calculate_statistics.py`:
count, mean, median, std, min, max, range and the three percentage bands
(`velocity < 0`, `velocity > 0`, `-2 <= velocity <= 2`). -/
def calculate_stats (name : String) (vs : List ℚ) : StatsQ :=
  { Infrastructure := name
    N_Points := vs.length
    Mean_Velocity := meanQ vs
    Median_Velocity := medianQ vs
    Std_sq_Velocity := stdSqQ vs
    Min_Velocity := minQ vs
    Max_Velocity := maxQ vs
    Range := osub (maxQ vs) (minQ vs)
    Pct_Subsiding := pctQ (vs.countP (fun x => decide (x < 0))) vs.length
    Pct_Uplifting := pctQ (vs.countP (fun x => decide (0 < x))) vs.length
    Pct_Stable :=
      pctQ (vs.countP (fun x => decide (-2 ≤ x) && decide (x ≤ 2))) vs.length }

/-- The three-level risk outcome of the risk-assessment loop. -/
inductive RiskLevel where
  | LOW
  | MODERATE
  | ELEVATED
deriving DecidableEq, Repr

/-- `x <= c` on a possibly-NaN value: a comparison against NaN is false in
Python, so `none` fails the test. -/
def oleB : Option ℚ → ℚ → Bool
  | none, _ => false
  | some v, c => decide (v ≤ c)

/-- `x >= c` on a possibly-NaN value; `none` fails the test. -/
def ogeB : Option ℚ → ℚ → Bool
  | none, _ => false
  | some v, c => decide (c ≤ v)

/-- `abs` on a possibly-NaN value (`abs(NaN) = NaN`). -/
def oabs (x : Option ℚ) : Option ℚ := x.map abs

/-- The branch cascade of the risk-assessment loop in step 3:
`mean_vel = abs(stats['Mean_Velocity'])`, then
`if mean_vel <= 2 and pct_stable >= 95` → LOW, `elif mean_vel <= 5 and
pct_stable >= 90` → MODERATE, `else` → ELEVATED, with the recommended
action chosen in the same branch. -/
def riskPair (mean pct : Option ℚ) : RiskLevel × String :=
  if oleB (oabs mean) 2 && ogeB pct 95 then
    (RiskLevel.LOW, "Continue routine monitoring")
  else if oleB (oabs mean) 5 && ogeB pct 90 then
    (RiskLevel.MODERATE, "Increased monitoring recommended")
  else
    (RiskLevel.ELEVATED, "Detailed investigation required")

/-- One row of the risk-assessment table (step 3, step 5 of the script). -/
structure RiskRow where
  Infrastructure : String
  Mean_Velocity : Option ℚ
  Max_Velocity : Option ℚ
  Pct_Stable : Option ℚ
  Risk_Level : RiskLevel
  Recommended_Action : String
deriving DecidableEq, Repr

/-- Builds a risk row from a statistics record.  The script also binds
`max_vel = abs(stats['Max_Velocity'])` but that binding is never used in
any branch; the row itself records the raw (unabsolved) mean and max. -/
def riskRowOf (s : StatsQ) : RiskRow :=
  let pr := riskPair s.Mean_Velocity s.Pct_Stable
  { Infrastructure := s.Infrastructure
    Mean_Velocity := s.Mean_Velocity
    Max_Velocity := s.Max_Velocity
    Pct_Stable := s.Pct_Stable
    Risk_Level := pr.1
    Recommended_Action := pr.2 }

/-- The baseline-comparison verdict of step 3. -/
inductive Assessment where
  | moreStable
  | lessStable
  | sameAsBaseline
deriving DecidableEq, Repr

/-- The exact strings the script attaches to each verdict. -/
def assessText : Assessment → String
  | Assessment.moreStable => "More stable (less subsidence)"
  | Assessment.lessStable => "Less stable (more subsidence)"
  | Assessment.sameAsBaseline => "Same as baseline"

/-- `if diff < 0 ... elif diff > 0 ... else ...` from the comparison loop.
Both comparisons are false on NaN, so a NaN difference falls through to
the `else` branch, exactly as the float code would. -/
def assessOf : Option ℚ → Assessment
  | none => Assessment.sameAsBaseline
  | some d =>
      if d < 0 then Assessment.moreStable
      else if 0 < d then Assessment.lessStable
      else Assessment.sameAsBaseline

/-- `pct_diff = (diff / abs(dublin_mean)) * 100`.  When the baseline mean
is exactly zero the numpy float64 quotient is non-finite (inf, or NaN when
the difference is also zero); the embedding renders any non-finite result
as `none`. -/
def pctDiffQ (diff dublinMean : Option ℚ) : Option ℚ :=
  diff.bind fun d =>
    dublinMean.bind fun m =>
      if |m| = 0 then none else some (d / |m| * 100)

/-- One row of the baseline-comparison table. -/
structure CompRow where
  Infrastructure : String
  Mean_Velocity : Option ℚ
  Dublin_Baseline : Option ℚ
  Difference : Option ℚ
  Pct_Difference : Option ℚ
  Assessment : Assessment
deriving DecidableEq, Repr

/-- One iteration of the comparison loop in step 3: difference to the
baseline mean, percent difference, and the stability verdict. -/
def comparisonRow (name : String) (classMean dublinMean : Option ℚ) :
    CompRow :=
  let diff := osub classMean dublinMean
  { Infrastructure := name
    Mean_Velocity := classMean
    Dublin_Baseline := dublinMean
    Difference := diff
    Pct_Difference := pctDiffQ diff dublinMean
    Assessment := assessOf diff }

/-- Round half to even to an integer, as numpy/pandas `round` does. -/
def roundHalfEven (x : ℚ) : ℤ :=
  let f := Int.floor x
  let r := x - (f : ℚ)
  if r < 1 / 2 then f
  else if 1 / 2 < r then f + 1
  else if 2 ∣ f then f else f + 1

/-- `Series.round(d)`: round to `d` decimal places, half to even. -/
def roundTo (d : ℕ) (x : ℚ) : ℚ :=
  (roundHalfEven (x * (10 : ℚ) ^ d) : ℚ) / (10 : ℚ) ^ d

/-- Rounding lifted over a possibly-NaN value. -/
def oround (d : ℕ) (x : Option ℚ) : Option ℚ := x.map (roundTo d)

/-- The `summary_df[col].round(2)` pass over the float columns of a
summary row (`N_Points` and the name are untouched). -/
def roundSummaryRow (s : StatsQ) : StatsQ :=
  { s with
    Mean_Velocity := oround 2 s.Mean_Velocity
    Median_Velocity := oround 2 s.Median_Velocity
    Std_sq_Velocity := oround 2 s.Std_sq_Velocity
    Min_Velocity := oround 2 s.Min_Velocity
    Max_Velocity := oround 2 s.Max_Velocity
    Range := oround 2 s.Range
    Pct_Subsiding := oround 2 s.Pct_Subsiding
    Pct_Uplifting := oround 2 s.Pct_Uplifting
    Pct_Stable := oround 2 s.Pct_Stable }

/-- `comparison_df['Difference'].round(2)` and
`comparison_df['Pct_Difference'].round(1)`, applied to a finished row. -/
def roundCompRow (r : CompRow) : CompRow :=
  { r with
    Difference := oround 2 r.Difference
    Pct_Difference := oround 1 r.Pct_Difference }

/-- The three tables produced by step 3. -/
structure Step3Output where
  summary : List StatsQ
  comparison : List CompRow
  risk : List RiskRow
deriving Repr

/-- The whole of `step3_calculate_statistics.py` on the four velocity
series: statistics records for the three zones and the baseline, the
rounded summary table, the comparison table (rounding applied to the
`Difference`/`Pct_Difference` columns after the rows, and in particular
the assessments, are built), and the risk table built from the raw
(unrounded) statistics records. -/
def step3 (railways roads harbour egms_all : List ℚ) : Step3Output :=
  let railways_stats := calculate_stats "Railways" railways
  let roads_stats := calculate_stats "Roads" roads
  let harbour_stats := calculate_stats "Harbour" harbour
  let dublin_stats := calculate_stats "All Dublin (Baseline)" egms_all
  let dublin_mean := dublin_stats.Mean_Velocity
  { summary :=
      [dublin_stats, railways_stats, roads_stats, harbour_stats].map
        roundSummaryRow
    comparison :=
      ([railways_stats, roads_stats, harbour_stats].map fun s =>
          comparisonRow s.Infrastructure s.Mean_Velocity dublin_mean).map
        roundCompRow
    risk := [railways_stats, roads_stats, harbour_stats].map riskRowOf }

/-- Where a location sits relative to a polygon: in its interior, exactly
on its boundary, or outside.  This is the DE-9IM trichotomy a planar
polygon induces on points; the geometry library's predicates are defined
from it. -/
inductive Loc where
  | interior
  | boundary
  | exterior
deriving DecidableEq, Repr

/-- A dissolved Buffer Zone as step 2 consumes it: a classification of
every (already reprojected) location against the zone polygon, plus the
attributes step 1 attached (`infra_type`, `buffer_m`). -/
structure BufferZone (α : Type) where
  locate : α → Loc
  infra_type : String
  buffer_m : ℚ

/-- A measurement point as loaded by step 2: a (reprojected) location, the
signed velocity, and the optional categorical risk label. -/
structure MPoint (α : Type) where
  geom : α
  velocity : ℚ
  risk_level : Option String
deriving DecidableEq, Repr

/-- The `predicate='within'` test of `gpd.sjoin`: for a point geometry,
`within` a polygon holds exactly when the point lies in the polygon's
interior (a point on the boundary has no interior intersection with the
polygon's interior, so it is not `within`). -/
def withinB {α : Type} (buffer : BufferZone α) (p : α) : Bool :=
  decide (buffer.locate p = Loc.interior)

/-- `find_points_in_buffer(egms_data, buffer_data, infrastructure_name)`
from `step2_find_points_in_buffers.py`: the inner spatial join keeps
exactly the input points within the buffer, and each retained point is
tagged with the infrastructure name
(`points_inside['infrastructure'] = infrastructure_name`). -/
def find_points_in_buffer {α : Type} (egms_data : List (MPoint α))
    (buffer_data : BufferZone α) (infrastructure_name : String) :
    List (MPoint α × String) :=
  (egms_data.filter fun pt => withinB buffer_data pt.geom).map
    fun pt => (pt, infrastructure_name)

/-- `geometry.buffer(r)` from `step1_create_buffers.py`, over an abstract
metric space of reprojected coordinates: the set of locations within
distance `r` of the feature. -/
def bufferSet {α : Type} [MetricSpace α] (g : Set α) (r : ℝ) : Set α :=
  {p | ∃ q ∈ g, dist p q ≤ r}

/-- `dissolve(by='infra_type')`: the union of all feature geometries of a
class into one zone. -/
def dissolve {α : Type} (gs : List (Set α)) : Set α :=
  gs.foldr (fun g acc => g ∪ acc) ∅

/-- The railways/roads pipeline of step 1: buffer every feature of the
class by the class radius, then dissolve. -/
def buffer_dissolve {α : Type} [MetricSpace α] (gs : List (Set α))
    (r : ℝ) : Set α :=
  dissolve (gs.map fun g => bufferSet g r)

/-- The harbour pipeline of step 1 (`BUFFER_HARBOUR = 0`): the features
are copied unbuffered and dissolved as-is. -/
def harbour_dissolve {α : Type} (gs : List (Set α)) : Set α :=
  dissolve gs

/-- A concrete statistics record exercising the risk stage; agrees with
`statsB` on the classification inputs and nowhere else. -/
def statsA : StatsQ :=
  { Infrastructure := "Railways"
    N_Points := 4
    Mean_Velocity := some 1
    Median_Velocity := some 1
    Std_sq_Velocity := some 0
    Min_Velocity := some (-1)
    Max_Velocity := some 3
    Range := some 4
    Pct_Subsiding := some 25
    Pct_Uplifting := some 50
    Pct_Stable := some 96 }

/-- A second record with the same mean and `Pct_Stable` as `statsA` but a
very different maximum (and everything else). -/
def statsB : StatsQ :=
  { Infrastructure := "Roads"
    N_Points := 9
    Mean_Velocity := some 1
    Median_Velocity := some 0
    Std_sq_Velocity := some 7
    Min_Velocity := some (-6)
    Max_Velocity := some 12
    Range := some 18
    Pct_Subsiding := some 30
    Pct_Uplifting := some 60
    Pct_Stable := some 96 }

/-- A concrete measurement point for exercising the zone join. -/
def boundaryPoint : MPoint ℚ :=
  { geom := 0, velocity := 1, risk_level := none }

/-- A buffer zone whose polygon has every location on its boundary, to
exercise the strictness of the `within` predicate. -/
def boundaryZone : BufferZone ℚ :=
  { locate := fun _ => Loc.boundary, infra_type := "Railways",
    buffer_m := 50 }

/-! ### Helper lemmas -/

/-- Radius-0 buffering leaves a feature geometry unchanged: the locations
at distance at most 0 from the feature are the feature's own points. -/
theorem bufferSet_zero {α : Type} [MetricSpace α] (g : Set α) :
    bufferSet g 0 = g := by
  ext p
  simp only [bufferSet, Set.mem_setOf_eq, dist_le_zero]
  constructor
  · rintro ⟨q, hq, rfl⟩
    exact hq
  · intro hp
    exact ⟨p, hp, rfl⟩

/-- Membership in a dissolved class: some feature of the class contains
the location. -/
theorem mem_dissolve {α : Type} (gs : List (Set α)) (p : α) :
    p ∈ dissolve gs ↔ ∃ g ∈ gs, p ∈ g := by
  induction gs with
  | nil => simp [dissolve]
  | cons g gs ih =>
      have hc : dissolve (g :: gs) = g ∪ dissolve gs := rfl
      rw [hc, Set.mem_union, ih]
      simp

/-- Case analysis of the comparison-loop verdict on a finite difference. -/
theorem assessOf_some (d : ℚ) :
    (assessOf (some d) = Assessment.moreStable ↔ d < 0)
  ∧ (assessOf (some d) = Assessment.lessStable ↔ 0 < d)
  ∧ (assessOf (some d) = Assessment.sameAsBaseline ↔ d = 0) := by
  rcases lt_trichotomy d 0 with hd | hd | hd
  · simp [assessOf, hd, lt_asymm hd, hd.ne]
  · subst hd; simp [assessOf]
  · simp [assessOf, hd, lt_asymm hd, hd.ne']

/-! ### Claims -/

/-- Claim C1: the risk classification evaluates exactly three branches in
order with first match winning — LOW when `|Mean_Velocity| <= 2` and
`Pct_Stable >= 95`, else MODERATE when `|Mean_Velocity| <= 5` and
`Pct_Stable >= 90`, else ELEVATED — with the fixed thresholds 2, 5, 95,
90 and the respective recommended actions. -/
theorem risk_classification_three_branches (m p : ℚ) :
    (riskPair (some m) (some p)
        = (RiskLevel.LOW, "Continue routine monitoring")
      ↔ |m| ≤ 2 ∧ 95 ≤ p)
  ∧ (riskPair (some m) (some p)
        = (RiskLevel.MODERATE, "Increased monitoring recommended")
      ↔ ¬(|m| ≤ 2 ∧ 95 ≤ p) ∧ (|m| ≤ 5 ∧ 90 ≤ p))
  ∧ (riskPair (some m) (some p)
        = (RiskLevel.ELEVATED, "Detailed investigation required")
      ↔ ¬(|m| ≤ 2 ∧ 95 ≤ p) ∧ ¬(|m| ≤ 5 ∧ 90 ≤ p)) := by
  by_cases h2 : |m| ≤ 2 <;> by_cases h95 : (95 : ℚ) ≤ p <;>
    by_cases h5 : |m| ≤ 5 <;> by_cases h90 : (90 : ℚ) ≤ p <;>
      simp [riskPair, oleB, ogeB, oabs, h2, h95, h5, h90]

/-- Claim C2: on the velocity series `[-1, -3, 0, 2, 5]` the statistics
are mean `0.6`, median `0`, `Pct_Stable = 60`, `Pct_Subsiding = 40`,
`Pct_Uplifting = 40` (zero in neither), and the risk classification is
ELEVATED: the LOW branch fails on `Pct_Stable` (60 < 95), the MODERATE
branch fails on `Pct_Stable` (60 < 90). -/
theorem end_to_end_zone_scenario :
    (calculate_stats "Zone" [-1, -3, 0, 2, 5]).Mean_Velocity = some (3 / 5)
  ∧ (calculate_stats "Zone" [-1, -3, 0, 2, 5]).Median_Velocity = some 0
  ∧ (calculate_stats "Zone" [-1, -3, 0, 2, 5]).Pct_Stable = some 60
  ∧ (calculate_stats "Zone" [-1, -3, 0, 2, 5]).Pct_Subsiding = some 40
  ∧ (calculate_stats "Zone" [-1, -3, 0, 2, 5]).Pct_Uplifting = some 40
  ∧ oleB (oabs (calculate_stats "Zone" [-1, -3, 0, 2, 5]).Mean_Velocity) 2
      = true
  ∧ ogeB (calculate_stats "Zone" [-1, -3, 0, 2, 5]).Pct_Stable 95 = false
  ∧ oleB (oabs (calculate_stats "Zone" [-1, -3, 0, 2, 5]).Mean_Velocity) 5
      = true
  ∧ ogeB (calculate_stats "Zone" [-1, -3, 0, 2, 5]).Pct_Stable 90 = false
  ∧ (riskRowOf (calculate_stats "Zone" [-1, -3, 0, 2, 5])).Risk_Level
      = RiskLevel.ELEVATED := by
  refine ⟨?_, ?_, ?_, ?_, ?_, ?_, ?_, ?_, ?_, ?_⟩ <;>
    norm_num [calculate_stats, meanQ, medianQ, pctQ, oleB, ogeB, oabs,
      riskRowOf, riskPair, List.insertionSort, List.orderedInsert,
      List.countP_cons, List.getD, abs_le]

/-- Claim C3: for a class with defined means and a non-zero baseline mean,
the comparison row carries `Difference = class mean - baseline mean` and
`Pct_Difference = Difference / |baseline mean| * 100`, and the verdict is
"more stable" iff the difference is negative, "less stable" iff positive,
"same as baseline" iff zero. -/
theorem baseline_comparison_formula (name : String) (cm dm : ℚ)
    (h : dm ≠ 0) :
    (comparisonRow name (some cm) (some dm)).Difference = some (cm - dm)
  ∧ (comparisonRow name (some cm) (some dm)).Pct_Difference
      = some ((cm - dm) / |dm| * 100)
  ∧ ((comparisonRow name (some cm) (some dm)).Assessment
        = Assessment.moreStable ↔ cm - dm < 0)
  ∧ ((comparisonRow name (some cm) (some dm)).Assessment
        = Assessment.lessStable ↔ 0 < cm - dm)
  ∧ ((comparisonRow name (some cm) (some dm)).Assessment
        = Assessment.sameAsBaseline ↔ cm - dm = 0) := by
  have habs : ¬ |dm| = 0 := by simpa using h
  have hA := assessOf_some (cm - dm)
  refine ⟨rfl, ?_, hA.1, hA.2.1, hA.2.2⟩
  simp [comparisonRow, osub, pctDiffQ, habs, h]

/-- Concrete instance of Claim C3: baseline mean `-0.53` and zone mean
`-0.2` give `Difference = 0.33` and the verdict "less stable". -/
theorem baseline_comparison_formula_witness :
    ((-53 : ℚ) / 100 ≠ 0)
  ∧ (comparisonRow "Roads" (some (-1 / 5)) (some (-53 / 100))).Difference
      = some (33 / 100)
  ∧ (comparisonRow "Roads" (some (-1 / 5)) (some (-53 / 100))).Assessment
      = Assessment.lessStable := by
  have h : ((-53 : ℚ) / 100) ≠ 0 := by norm_num
  have hc := baseline_comparison_formula "Roads" (-1 / 5) (-53 / 100) h
  refine ⟨h, ?_, ?_⟩
  · rw [hc.1]
    norm_num
  · exact (hc.2.2.2.1).mpr (by norm_num)

/-- Claim C4, evaluated at the failing input: with baseline velocities
`[-1, 1]` the baseline mean is exactly 0, and the percent difference of a
class of mean 1 is undefined (`none`): the float script at this input
silently produces a non-finite value (inf) instead of raising a
division-by-zero error. -/
theorem zero_baseline_mean_pct_diff :
    meanQ [-1, 1] = some 0
  ∧ (comparisonRow "Railways" (some 1) (meanQ [-1, 1])).Difference = some 1
  ∧ (comparisonRow "Railways" (some 1) (meanQ [-1, 1])).Pct_Difference
      = none := by
  have hm : meanQ [(-1 : ℚ), 1] = some 0 := by norm_num [meanQ]
  refine ⟨hm, ?_, ?_⟩ <;> rw [hm] <;>
    simp [comparisonRow, osub, pctDiffQ]

/-- Claim C5, evaluated at the failing input: on an empty Zone Point Set
`calculate_stats` does not raise anything; it returns a record whose
statistics are all NaN (undefined, embedded as `none`).  The last
conjunct shows the sample standard deviation is also NaN for a
single-point set (`0/0` with `ddof = 1`). -/
theorem empty_set_statistics_record :
    (calculate_stats "Railways" []).N_Points = 0
  ∧ (calculate_stats "Railways" []).Mean_Velocity = none
  ∧ (calculate_stats "Railways" []).Median_Velocity = none
  ∧ (calculate_stats "Railways" []).Std_sq_Velocity = none
  ∧ (calculate_stats "Railways" []).Min_Velocity = none
  ∧ (calculate_stats "Railways" []).Max_Velocity = none
  ∧ (calculate_stats "Railways" []).Range = none
  ∧ (calculate_stats "Railways" []).Pct_Subsiding = none
  ∧ (calculate_stats "Railways" []).Pct_Uplifting = none
  ∧ (calculate_stats "Railways" []).Pct_Stable = none
  ∧ (calculate_stats "Railways" [0]).Std_sq_Velocity = none :=
  ⟨rfl, rfl, rfl, rfl, rfl, rfl, rfl, rfl, rfl, rfl, rfl⟩

/-- Claim C6: the zone join retains a point exactly when its location is
strictly in the interior of the class's buffer polygon (tagging it with
the class name); a point lying exactly on the polygon boundary is
excluded. -/
theorem zone_join_strict_within {α : Type} (egms : List (MPoint α))
    (buffer : BufferZone α) (name : String) (pt : MPoint α)
    (lab : String) :
    ((pt, lab) ∈ find_points_in_buffer egms buffer name
      ↔ pt ∈ egms ∧ buffer.locate pt.geom = Loc.interior ∧ lab = name)
  ∧ (buffer.locate pt.geom = Loc.boundary
      → (pt, lab) ∉ find_points_in_buffer egms buffer name) := by
  have main : (pt, lab) ∈ find_points_in_buffer egms buffer name
      ↔ pt ∈ egms ∧ buffer.locate pt.geom = Loc.interior ∧ lab = name := by
    constructor
    · intro hmem
      rcases List.mem_map.mp hmem with ⟨a, haf, heq⟩
      rcases List.mem_filter.mp haf with ⟨ha, hwf⟩
      cases heq
      exact ⟨ha, of_decide_eq_true hwf, rfl⟩
    · rintro ⟨ha, hloc, hlab⟩
      subst hlab
      exact List.mem_map.mpr
        ⟨pt, List.mem_filter.mpr ⟨ha, decide_eq_true hloc⟩, rfl⟩
  refine ⟨main, fun hb hmem => ?_⟩
  have hint := (main.mp hmem).2.1
  rw [hb] at hint
  exact Loc.noConfusion hint

/-- Concrete instance for Claim C6: a point sitting exactly on the buffer
boundary is not retained by the join. -/
theorem zone_join_strict_within_witness :
    boundaryZone.locate boundaryPoint.geom = Loc.boundary
  ∧ (boundaryPoint, "Railways") ∉
      find_points_in_buffer [boundaryPoint] boundaryZone "Railways" :=
  ⟨rfl,
    (zone_join_strict_within [boundaryPoint] boundaryZone "Railways"
      boundaryPoint "Railways").2 rfl⟩

/-- Claim C7: radius-0 buffering is the identity on every feature
geometry, the harbour pipeline (which copies the geometry unbuffered and
dissolves) coincides with the buffered pipeline at radius 0, and the
dissolve still unions the class's features into one zone. -/
theorem zero_radius_buffer_identity {α : Type} [MetricSpace α]
    (g : Set α) (gs : List (Set α)) (p : α) :
    bufferSet g 0 = g
  ∧ harbour_dissolve gs = buffer_dissolve gs 0
  ∧ (p ∈ harbour_dissolve gs ↔ ∃ h ∈ gs, p ∈ h) := by
  have hb : (fun h : Set α => bufferSet h 0) = fun h => h :=
    funext fun h => bufferSet_zero h
  refine ⟨bufferSet_zero g, ?_, mem_dissolve gs p⟩
  unfold buffer_dissolve harbour_dissolve
  rw [hb]
  simp

/-- Claim C8: the risk tier and recommended action depend only on
`Mean_Velocity` and `Pct_Stable`: two statistics records agreeing on
those two fields classify identically, whatever `Max_Velocity` (which
the loop also reads) and the other statistics are. -/
theorem risk_depends_only_on_mean_and_pct_stable (s t : StatsQ)
    (hmean : s.Mean_Velocity = t.Mean_Velocity)
    (hpct : s.Pct_Stable = t.Pct_Stable) :
    (riskRowOf s).Risk_Level = (riskRowOf t).Risk_Level
  ∧ (riskRowOf s).Recommended_Action = (riskRowOf t).Recommended_Action := by
  simp [riskRowOf, hmean, hpct]

/-- Concrete instance for Claim C8: `statsA` and `statsB` share only the
mean and `Pct_Stable` (their maxima differ) yet classify identically. -/
theorem risk_depends_only_on_mean_and_pct_stable_witness :
    statsA.Mean_Velocity = statsB.Mean_Velocity
  ∧ statsA.Pct_Stable = statsB.Pct_Stable
  ∧ statsA.Max_Velocity ≠ statsB.Max_Velocity
  ∧ ((riskRowOf statsA).Risk_Level = (riskRowOf statsB).Risk_Level
      ∧ (riskRowOf statsA).Recommended_Action
          = (riskRowOf statsB).Recommended_Action) :=
  ⟨rfl, rfl, by norm_num [statsA, statsB],
    risk_depends_only_on_mean_and_pct_stable statsA statsB rfl rfl⟩

/-- Claim C9: the zone join never mutates points: the retained points are
exactly a filtered sublist of the input points (so every attribute of a
retained point is the input one), and the join adds only the owning
zone's name as a tag. -/
theorem zone_join_preserves_points {α : Type} (egms : List (MPoint α))
    (buffer : BufferZone α) (name : String) :
    ((find_points_in_buffer egms buffer name).map Prod.fst
      = egms.filter fun pt => withinB buffer pt.geom)
  ∧ List.Sublist
      ((find_points_in_buffer egms buffer name).map Prod.fst) egms
  ∧ ((find_points_in_buffer egms buffer name).map Prod.snd
      = List.replicate (find_points_in_buffer egms buffer name).length
          name) := by
  have hmap : (find_points_in_buffer egms buffer name).map Prod.fst
      = egms.filter fun pt => withinB buffer pt.geom := by
    rw [find_points_in_buffer, List.map_map,
      show (Prod.fst ∘ fun pt : MPoint α => (pt, name)) = id from rfl,
      List.map_id]
  refine ⟨hmap, ?_, ?_⟩
  · rw [hmap]
    exact List.filter_sublist egms
  · rw [find_points_in_buffer, List.map_map,
      show (Prod.snd ∘ fun pt : MPoint α => (pt, name))
          = fun _ => name from rfl,
      List.map_const']
    simp [find_points_in_buffer]

/-- Claim C10: rounding is presentation-only: the risk tiers and the
comparison verdicts produced by step 3 are those computed from the
full-precision statistics (rounding is applied to the output tables only
after tier and verdict are fixed, and the comparison rows still carry
the unrounded means); the last two conjuncts show rounding before
classification would not be innocuous (a mean of 2.004 rounds to 2.0,
crossing the LOW threshold). -/
theorem rounding_is_presentation_only (r o h e : List ℚ) :
    ((step3 r o h e).risk.map RiskRow.Risk_Level
      = [(riskPair (meanQ r) ((calculate_stats "Railways" r).Pct_Stable)).1,
         (riskPair (meanQ o) ((calculate_stats "Roads" o).Pct_Stable)).1,
         (riskPair (meanQ h) ((calculate_stats "Harbour" h).Pct_Stable)).1])
  ∧ ((step3 r o h e).comparison.map CompRow.Assessment
      = [assessOf (osub (meanQ r) (meanQ e)),
         assessOf (osub (meanQ o) (meanQ e)),
         assessOf (osub (meanQ h) (meanQ e))])
  ∧ ((step3 r o h e).comparison.map CompRow.Mean_Velocity
      = [meanQ r, meanQ o, meanQ h])
  ∧ (riskPair (some (2004 / 1000)) (some 96)).1 = RiskLevel.MODERATE
  ∧ (riskPair (oround 2 (some (2004 / 1000))) (some 96)).1
      = RiskLevel.LOW := by
  refine ⟨rfl, rfl, rfl, ?_, ?_⟩
  · norm_num [riskPair, oleB, ogeB, oabs, abs_le]
  · norm_num [riskPair, oleB, ogeB, oabs, oround, roundTo, roundHalfEven,
      abs_le]

end DublinInfra
